import Mathlib

/-!
Verification of the frame sampling and resize pipeline of
`VideoFrameExtractor` (src/main.py).

Python integers are modelled as `ℤ`, Python floats as exact rationals `ℚ`
(IEEE-754 rounding is idealized as exact arithmetic), Python `int(x)`
truncation as `pyInt`, Python floor division `//` as `Int.fdiv`, and code
that raises an exception as `Except`.  The external collaborators
(`cv2.VideoCapture.read`, `cv2.imwrite`, the pixel content produced by
`cv2.resize`) are oracles passed in as function arguments.
-/

/-- Python `int(x)` applied to a real value: truncation toward zero. -/
def pyInt (q : ℚ) : ℤ := if 0 ≤ q then ⌊q⌋ else ⌈q⌉

/-- The `video_info` dictionary populated by `_load_video_info`
(src/main.py lines 50-61). -/
structure VideoInfo where
  fps : ℚ
  total_frames : ℤ
  width : ℤ
  height : ℤ
  duration : ℚ
  deriving DecidableEq

/-- `_load_video_info` (src/main.py lines 50-61): `duration` is
`total_frames / fps` when `fps > 0`, else the initial value `0`. -/
def load_video_info (fps : ℚ) (total_frames width height : ℤ) : VideoInfo :=
  { fps := fps
    total_frames := total_frames
    width := width
    height := height
    duration := if 0 < fps then (total_frames : ℚ) / fps else 0 }

/-- `calculate_optimal_frames` (src/main.py lines 67-79):
`max(1, min(int(duration * frames_per_second), total_frames))`. -/
def calculate_optimal_frames (info : VideoInfo) (frames_per_second : ℚ) : ℤ :=
  max 1 (min (pyInt (info.duration * frames_per_second)) info.total_frames)

/-- The frame-count resolution performed by `extract_frames`
(src/main.py lines 100-105): when `num_frames` is `None` it is computed by
`calculate_optimal_frames`, then in either case it is capped by
`num_frames = min(num_frames, total_frames)`.  Note the code applies no
lower clamp at this point. -/
def resolve_frame_count (requested : Option ℤ) (info : VideoInfo)
    (frames_per_second : ℚ) : ℤ :=
  min
    (match requested with
      | none => calculate_optimal_frames info frames_per_second
      | some n => n)
    info.total_frames

/-- The index selection of `extract_frames` (src/main.py lines 107-112):
`[total_frames // 2]` when `num_frames == 1`, otherwise
`np.linspace(0, total_frames - 1, num_frames, dtype=int)`, i.e. the values
`i * (total_frames - 1) / (num_frames - 1)` for `i < num_frames`, truncated
to integers (float arithmetic idealized as exact rationals). -/
def select_indices (total_frames num_frames : ℤ) : List ℤ :=
  if num_frames = 1 then
    [Int.fdiv total_frames 2]
  else
    (List.range num_frames.toNat).map fun i : ℕ =>
      pyInt ((i : ℚ) * ((total_frames : ℚ) - 1) / ((num_frames : ℚ) - 1))

/-- A 3-channel pixel (OpenCV BGR order). -/
structure Pixel where
  b : ℕ
  g : ℕ
  r : ℕ
  deriving DecidableEq

/-- The all-zero pixel used for the `np.zeros` padding canvas. -/
def black : Pixel := ⟨0, 0, 0⟩

/-- Exceptions that `_resize_with_aspect_ratio` can raise:
`zeroDivisionError` from `target_width / w` or `target_height / h` when a
source dimension is zero, and `resizeErr` from `cv2.resize` when the
computed size has a non-positive dimension. -/
inductive ResizeErr where
  | zeroDivisionError
  | resizeErr
  deriving DecidableEq

/-- `new_w = int(w * ratio)` in `_resize_with_aspect_ratio`
(src/main.py lines 182-183), with `ratio = min(target_width / w,
target_height / h)`. -/
def scaled_w (h w target_width target_height : ℤ) : ℤ :=
  pyInt ((w : ℚ) *
    min ((target_width : ℚ) / (w : ℚ)) ((target_height : ℚ) / (h : ℚ)))

/-- `new_h = int(h * ratio)` in `_resize_with_aspect_ratio`
(src/main.py lines 182-184). -/
def scaled_h (h w target_width target_height : ℤ) : ℤ :=
  pyInt ((h : ℚ) *
    min ((target_width : ℚ) / (w : ℚ)) ((target_height : ℚ) / (h : ℚ)))

/-- `_resize_with_aspect_ratio` (src/main.py lines 167-197).  The pixel
content produced by `cv2.resize` is abstracted by the oracle `resized`
(row and column, both relative to the resized image).  The divisions in
`ratio = min(target_width / w, target_height / h)` raise
`ZeroDivisionError` when a source dimension is zero; `cv2.resize` raises
when the computed size has a non-positive dimension; otherwise the result
is the `target_height × target_width` canvas `np.zeros(...)` with the
resized image pasted at `y_offset = (target_height - new_h) // 2`,
`x_offset = (target_width - new_w) // 2`. -/
def resize_with_aspect (h w : ℤ) (resized : ℤ → ℤ → Pixel)
    (target_width target_height : ℤ) :
    Except ResizeErr (List (List Pixel)) :=
  if w = 0 ∨ h = 0 then .error .zeroDivisionError
  else if scaled_w h w target_width target_height ≤ 0 ∨
      scaled_h h w target_width target_height ≤ 0 then .error .resizeErr
  else
    let new_w := scaled_w h w target_width target_height
    let new_h := scaled_h h w target_width target_height
    let y_offset := Int.fdiv (target_height - new_h) 2
    let x_offset := Int.fdiv (target_width - new_w) 2
    .ok ((List.range target_height.toNat).map fun y : ℕ =>
      (List.range target_width.toNat).map fun x : ℕ =>
        if y_offset ≤ (y : ℤ) ∧ (y : ℤ) < y_offset + new_h ∧
            x_offset ≤ (x : ℤ) ∧ (x : ℤ) < x_offset + new_w then
          resized ((y : ℤ) - y_offset) ((x : ℤ) - x_offset)
        else black)

/-- The pixel of a canvas at row `y`, column `x`. -/
def pixelAt (canvas : List (List Pixel)) (y x : ℕ) : Option Pixel :=
  canvas[y]?.bind fun row => row[x]?

/-- Python's `f"{n:06d}"` for a non-negative value: the decimal digits
left-padded with zeros to width 6. -/
def pad6 (n : ℕ) : String :=
  let s := toString n
  String.mk (List.replicate (6 - s.length) '0') ++ s

/-- The output file name `f"frame{idx:06d}.jpg"`
(src/main.py line 139). -/
def frameFilename (idx : ℕ) : String := "frame" ++ pad6 idx ++ ".jpg"

/-- `os.path.join(output_dir, filename)` for a relative file name. -/
def joinPath (dir file : String) : String := dir ++ "/" ++ file

/-- The observable result of the extraction loop: the list of successfully
written paths (`extracted_files`) and the number of per-frame warnings
printed. -/
structure ExtractOutcome where
  files : List String
  warnings : ℕ
  deriving DecidableEq

/-- The per-index loop of `extract_frames` (src/main.py lines 126-158),
iterating over `enumerate(frame_indices)` from loop position `k`.  The
outcomes of `cap.read` and `cv2.imwrite` at each loop position are the
oracles `decodeOk` and `encodeOk`.  A failed read prints a warning and
continues; a successful write appends
`os.path.join(output_dir, f"frame{idx:06d}.jpg")` where `idx` is the loop
position; a failed write prints a warning and continues. -/
def extract_loop (output_dir : String) (decodeOk encodeOk : ℕ → Bool) :
    ℕ → List ℤ → ExtractOutcome
  | _, [] => ⟨[], 0⟩
  | k, _ :: rest =>
    let r := extract_loop output_dir decodeOk encodeOk (k + 1) rest
    if decodeOk k then
      if encodeOk k then
        ⟨joinPath output_dir (frameFilename k) :: r.files, r.warnings⟩
      else ⟨r.files, r.warnings + 1⟩
    else ⟨r.files, r.warnings + 1⟩

/-- The exit code chosen by `main` from the returned file list
(src/main.py lines 372-387): 0 when `extracted_files` is non-empty,
else 1. -/
def main_exit_code (files : List String) : ℤ :=
  if files.isEmpty then 1 else 0

/-- The fatal message printed by `main` when the returned file list is
empty (src/main.py line 386). -/
def noFramesMessage : String := "No se pudo extraer ningún frame"

/-- The observable outcome of a `main` extraction run. -/
structure MainOutcome where
  exitCode : ℤ
  errorMessage : Option String
  files : List String
  deriving DecidableEq

/-- The extraction path of `main` (src/main.py lines 350-387) once the
video is open and `--info` was not given: resolve the frame count, select
the indices, run the extraction loop, then exit 0 on a non-empty file list
and exit 1 with the no-frames message on an empty one. -/
def run_extraction (info : VideoInfo) (requested : Option ℤ) (fps : ℚ)
    (output_dir : String) (decodeOk encodeOk : ℕ → Bool) : MainOutcome :=
  let files := (extract_loop output_dir decodeOk encodeOk 0
    (select_indices info.total_frames
      (resolve_frame_count requested info fps))).files
  if files.isEmpty then ⟨1, some noFramesMessage, files⟩
  else ⟨0, none, files⟩

/-- A store of dictionary objects: Python dictionary identity modelled as
an address into a heap of `VideoInfo` contents. -/
def DictHeap := ℕ → VideoInfo

/-- Destructive update of the dictionary at address `r`. -/
def heapWrite (H : DictHeap) (r : ℕ) (v : VideoInfo) : DictHeap :=
  fun s => if s = r then v else H s

/-- The extractor object: it holds a reference to its `video_info`
dictionary. -/
structure ExtractorState where
  infoRef : ℕ

/-- `get_video_info` (src/main.py lines 63-65):
`return self.video_info.copy()` allocates a fresh dictionary holding a copy
of the extractor's metadata and returns its address; the extractor keeps
its own reference untouched. -/
def get_video_info (H : DictHeap) (s : ExtractorState) (fresh : ℕ) :
    DictHeap × ℕ :=
  (heapWrite H fresh (H s.infoRef), fresh)

example : select_indices 9 1 = [4] := by decide
example : select_indices 0 0 = [] := by norm_num [select_indices]
example : resolve_frame_count (some 0) (load_video_info 1 1 640 480) 20 = 0 := by
  decide
example : calculate_optimal_frames (load_video_info 2 10 640 480) 2 = 10 := by
  norm_num [calculate_optimal_frames, load_video_info, pyInt]
example : frameFilename 0 = "frame000000.jpg" := rfl
example : frameFilename 1 = "frame000001.jpg" := rfl

theorem pyInt_of_nonneg {q : ℚ} (h : 0 ≤ q) : pyInt q = ⌊q⌋ := if_pos h

theorem select_indices_length (T n : ℤ) (hn : n ≠ 1) :
    (select_indices T n).length = n.toNat := by
  unfold select_indices
  rw [if_neg hn, List.length_map, List.length_range]

theorem select_indices_getElem (T n : ℤ) (hn : n ≠ 1) {i : ℕ} (hi : i < n.toNat) :
    (select_indices T n)[i]? =
      some (pyInt ((i : ℚ) * ((T : ℚ) - 1) / ((n : ℚ) - 1))) := by
  unfold select_indices
  rw [if_neg hn, List.getElem?_map, List.getElem?_range hi]
  rfl

theorem linspace_term_nonneg {T n : ℤ} (hT : 2 ≤ T) (hn : 2 ≤ n) (i : ℕ) :
    0 ≤ (i : ℚ) * ((T : ℚ) - 1) / ((n : ℚ) - 1) := by
  have h1 : (0 : ℚ) ≤ (T : ℚ) - 1 := by
    have : (2 : ℚ) ≤ (T : ℚ) := by exact_mod_cast hT
    linarith
  have h2 : (0 : ℚ) ≤ (n : ℚ) - 1 := by
    have : (2 : ℚ) ≤ (n : ℚ) := by exact_mod_cast hn
    linarith
  exact div_nonneg (mul_nonneg (by positivity) h1) h2

/-- C1 counterexample: with a one-frame video (`total_frames = 1`,
`duration = 1 ≥ 0`) and `sampling_fps = 20 > 0`, an explicit request of `0`
frames resolves to `0`, which lies outside `[1, total_frames]`: the cap in
`extract_frames` is `min(num_frames, total_frames)` with no lower clamp. -/
theorem resolve_frame_count_zero_requested :
    resolve_frame_count (some 0) (load_video_info 1 1 640 480) 20 < 1 := by
  decide

/-- C1 (amended): for every `total_frames ≥ 1`, `duration ≥ 0`,
`sampling_fps > 0`, and `requested` either absent or `≥ 1`, the resolved
frame count lies in `[1, total_frames]`. -/
theorem resolve_frame_count_in_range (requested : Option ℤ) (info : VideoInfo)
    (fps : ℚ) (htot : 1 ≤ info.total_frames) (hdur : 0 ≤ info.duration)
    (hfps : 0 < fps) (hreq : ∀ r, requested = some r → 1 ≤ r) :
    1 ≤ resolve_frame_count requested info fps ∧
      resolve_frame_count requested info fps ≤ info.total_frames := by
  unfold resolve_frame_count
  cases requested with
  | none =>
      unfold calculate_optimal_frames
      exact ⟨le_min (le_max_left _ _) htot, min_le_right _ _⟩
  | some r =>
      exact ⟨le_min (hreq r rfl) htot, min_le_right _ _⟩

theorem resolve_frame_count_in_range_witness :
    1 ≤ resolve_frame_count none (load_video_info 2 10 640 480) 20 ∧
      resolve_frame_count none (load_video_info 2 10 640 480) 20 ≤
        (load_video_info 2 10 640 480).total_frames :=
  resolve_frame_count_in_range none (load_video_info 2 10 640 480) 20
    (by norm_num [load_video_info]) (by norm_num [load_video_info])
    (by norm_num) (fun r h => Option.noConfusion h)

/-- C3: for every `total_frames ≥ 1`, when the resolved frame count is 1 the
index selection returns exactly the one-element sequence
`[⌊total_frames / 2⌋]` (the middle frame). -/
theorem select_indices_one (total_frames : ℤ) (h : 1 ≤ total_frames) :
    select_indices total_frames 1 = [⌊(total_frames : ℚ) / 2⌋] := by
  unfold select_indices
  rw [if_pos rfl, Int.fdiv_eq_ediv _ (by norm_num)]
  congr 1
  rw [(by norm_num : (2 : ℚ) = ((2 : ℕ) : ℚ)), Rat.floor_intCast_div_natCast]
  norm_num

theorem select_indices_one_witness :
    select_indices 9 1 = [⌊(9 : ℚ) / 2⌋] :=
  select_indices_one 9 (by norm_num)

/-- C2: for every `total_frames ≥ 2` and `2 ≤ frame_count ≤ total_frames`,
the index selection returns a non-decreasing sequence of exactly
`frame_count` integers whose first element is 0, whose last element is
`total_frames - 1`, and whose `i`-th element is
`⌊i * (total_frames - 1) / (frame_count - 1)⌋`. -/
theorem select_indices_spread (T n : ℤ) (hT : 2 ≤ T) (hn : 2 ≤ n)
    (hnT : n ≤ T) :
    (select_indices T n).length = n.toNat ∧
    List.Sorted (· ≤ ·) (select_indices T n) ∧
    (select_indices T n).head? = some 0 ∧
    (select_indices T n).getLast? = some (T - 1) ∧
    ∀ i : ℕ, i < n.toNat →
      (select_indices T n)[i]? =
        some ⌊(i : ℚ) * ((T : ℚ) - 1) / ((n : ℚ) - 1)⌋ := by
  have hn1 : n ≠ 1 := by omega
  have hlen := select_indices_length T n hn1
  have hget : ∀ i : ℕ, i < n.toNat →
      (select_indices T n)[i]? =
        some ⌊(i : ℚ) * ((T : ℚ) - 1) / ((n : ℚ) - 1)⌋ := by
    intro i hi
    rw [select_indices_getElem T n hn1 hi,
      pyInt_of_nonneg (linspace_term_nonneg hT hn i)]
  have htoNat : 2 ≤ n.toNat := by omega
  have hnQ : (2 : ℚ) ≤ (n : ℚ) := by exact_mod_cast hn
  refine ⟨hlen, ?_, ?_, ?_, hget⟩
  · unfold select_indices
    rw [if_neg hn1]
    show List.Pairwise _ _
    refine List.Pairwise.map _ ?_ (List.pairwise_lt_range n.toNat)
    intro a b hab
    rw [pyInt_of_nonneg (linspace_term_nonneg hT hn a),
      pyInt_of_nonneg (linspace_term_nonneg hT hn b)]
    apply Int.floor_le_floor
    rw [mul_div_assoc, mul_div_assoc]
    have hc : (0 : ℚ) ≤ ((T : ℚ) - 1) / ((n : ℚ) - 1) := by
      have hTQ : (2 : ℚ) ≤ (T : ℚ) := by exact_mod_cast hT
      exact div_nonneg (by linarith) (by linarith)
    exact mul_le_mul_of_nonneg_right (by exact_mod_cast hab.le) hc
  · rw [List.head?_eq_getElem?, hget 0 (by omega)]
    norm_num
  · rw [List.getLast?_eq_getElem?, hlen, hget (n.toNat - 1) (by omega)]
    have hcast : ((n.toNat - 1 : ℕ) : ℚ) = (n : ℚ) - 1 := by
      rw [Nat.cast_sub (by omega)]
      congr 1
      have : ((n.toNat : ℤ) : ℚ) = (n : ℚ) := by
        rw [Int.toNat_of_nonneg (by omega : (0 : ℤ) ≤ n)]
      push_cast at this ⊢
      exact this
    rw [hcast]
    have hne : (n : ℚ) - 1 ≠ 0 := by linarith
    rw [mul_comm, mul_div_assoc, div_self hne, mul_one]
    congr 1
    rw [(by push_cast; ring : (T : ℚ) - 1 = ((T - 1 : ℤ) : ℚ)), Int.floor_intCast]

theorem select_indices_spread_witness :
    (select_indices 10 4).length = (4 : ℤ).toNat ∧
    List.Sorted (· ≤ ·) (select_indices 10 4) ∧
    (select_indices 10 4).head? = some 0 ∧
    (select_indices 10 4).getLast? = some (10 - 1) ∧
    ∀ i : ℕ, i < (4 : ℤ).toNat →
      (select_indices 10 4)[i]? =
        some ⌊(i : ℚ) * ((10 : ℚ) - 1) / (((4 : ℤ) : ℚ) - 1)⌋ :=
  select_indices_spread 10 4 (by norm_num) (by norm_num) (by norm_num)

/-- C6 counterexample: a frame of width 0 (height 1) is not rejected with an
invalid-frame error; instead the ratio computation
`min(target_width / w, target_height / h)` divides by zero
(`ZeroDivisionError`). -/
theorem resize_zero_width_divides_by_zero :
    resize_with_aspect 1 0 (fun _ _ => black) 1200 680 =
      .error .zeroDivisionError := by
  unfold resize_with_aspect
  rw [if_pos (Or.inl rfl)]

/-- C6 (amended): for every input frame whose width or height is zero,
`_resize_with_aspect_ratio` raises `ZeroDivisionError` at the ratio
computation: there is no invalid-frame check, and a division by zero is
exactly what interrupts the call (the exception propagates to the generic
handler in `main`). -/
theorem resize_zero_dim_raises (h w : ℤ) (resized : ℤ → ℤ → Pixel)
    (tw th : ℤ) (hzero : w = 0 ∨ h = 0) :
    resize_with_aspect h w resized tw th = .error .zeroDivisionError := by
  unfold resize_with_aspect
  rw [if_pos hzero]

theorem resize_zero_dim_raises_witness :
    resize_with_aspect 3 0 (fun _ _ => black) 1200 680 =
      .error .zeroDivisionError :=
  resize_zero_dim_raises 3 0 (fun _ _ => black) 1200 680 (Or.inl rfl)

/-- C5: the code computes `new_h = int(h * ratio)` with no clamp to 1.  For
a 10000×1 source frame (`h = 1`, `w = 10000`) and the default 1200×680
target, the scaled height is 0 and `cv2.resize` receives a zero-area size,
raising an error instead of producing a 1-pixel-high image. -/
theorem scaled_height_zero_at_wide_frame :
    scaled_h 1 10000 1200 680 = 0 ∧
    resize_with_aspect 1 10000 (fun _ _ => black) 1200 680 =
      .error .resizeErr := by
  have hs : scaled_h 1 10000 1200 680 = 0 := by
    unfold scaled_h pyInt
    norm_num [min_def]
  refine ⟨hs, ?_⟩
  unfold resize_with_aspect
  rw [if_neg (by norm_num), if_pos (Or.inr hs.le)]

/-- C4 counterexample: for the all-positive dimensions source 4000×1
(`h = 1`, `w = 4000`) and target 1200×680, compose returns no
`target_width × target_height` buffer at all: the unclamped scaled height
is 0 and the resize step raises. -/
theorem resize_no_canvas_at_wide_frame :
    resize_with_aspect 1 4000 (fun _ _ => black) 1200 680 =
      .error .resizeErr := by
  have hs : scaled_h 1 4000 1200 680 = 0 := by
    unfold scaled_h pyInt
    norm_num [min_def]
  unfold resize_with_aspect
  rw [if_neg (by norm_num), if_pos (Or.inr hs.le)]

/-- C4 (amended): for every source frame with positive width and height and
every positive target size, provided the unclamped scaled dimensions are at
least 1 (they can be 0, see C5), compose returns a buffer of exactly
`target_height` rows of `target_width` pixels in which the resized image is
pasted at `x_offset = ⌊(target_width - new_w) / 2⌋`,
`y_offset = ⌊(target_height - new_h) / 2⌋`, and every pixel outside the
pasted region is black. -/
theorem resize_canvas_spec (h w tw th : ℤ) (resized : ℤ → ℤ → Pixel)
    (hw : 0 < w) (hh : 0 < h) (htw : 0 < tw) (hth : 0 < th)
    (hnw : 1 ≤ scaled_w h w tw th) (hnh : 1 ≤ scaled_h h w tw th) :
    ∃ canvas, resize_with_aspect h w resized tw th = .ok canvas ∧
      canvas.length = th.toNat ∧
      (∀ row ∈ canvas, row.length = tw.toNat) ∧
      (∀ y x : ℕ, y < th.toNat → x < tw.toNat →
        pixelAt canvas y x = some (
          if (th - scaled_h h w tw th) / 2 ≤ (y : ℤ) ∧
              (y : ℤ) < (th - scaled_h h w tw th) / 2 + scaled_h h w tw th ∧
              (tw - scaled_w h w tw th) / 2 ≤ (x : ℤ) ∧
              (x : ℤ) < (tw - scaled_w h w tw th) / 2 + scaled_w h w tw th then
            resized ((y : ℤ) - (th - scaled_h h w tw th) / 2)
              ((x : ℤ) - (tw - scaled_w h w tw th) / 2)
          else black)) := by
  have hne : ¬(w = 0 ∨ h = 0) := by omega
  have hng : ¬(scaled_w h w tw th ≤ 0 ∨ scaled_h h w tw th ≤ 0) := by omega
  have hfdiv_h : Int.fdiv (th - scaled_h h w tw th) 2 =
      (th - scaled_h h w tw th) / 2 := Int.fdiv_eq_ediv _ (by norm_num)
  have hfdiv_w : Int.fdiv (tw - scaled_w h w tw th) 2 =
      (tw - scaled_w h w tw th) / 2 := Int.fdiv_eq_ediv _ (by norm_num)
  unfold resize_with_aspect
  rw [if_neg hne, if_neg hng]
  simp only [hfdiv_h, hfdiv_w]
  refine ⟨_, rfl, ?_, ?_, ?_⟩
  · rw [List.length_map, List.length_range]
  · intro row hrow
    rw [List.mem_map] at hrow
    obtain ⟨y, _, rfl⟩ := hrow
    rw [List.length_map, List.length_range]
  · intro y x hy hx
    unfold pixelAt
    rw [List.getElem?_map, List.getElem?_range hy]
    simp only [Option.map_some', Option.some_bind]
    rw [List.getElem?_map, List.getElem?_range hx]
    rfl

theorem resize_canvas_spec_witness :
    ∃ canvas, resize_with_aspect 2 2 (fun _ _ => black) 4 2 = .ok canvas ∧
      canvas.length = (2 : ℤ).toNat ∧
      (∀ row ∈ canvas, row.length = (4 : ℤ).toNat) ∧
      (∀ y x : ℕ, y < (2 : ℤ).toNat → x < (4 : ℤ).toNat →
        pixelAt canvas y x = some (
          if ((2 : ℤ) - scaled_h 2 2 4 2) / 2 ≤ (y : ℤ) ∧
              (y : ℤ) < ((2 : ℤ) - scaled_h 2 2 4 2) / 2 + scaled_h 2 2 4 2 ∧
              ((4 : ℤ) - scaled_w 2 2 4 2) / 2 ≤ (x : ℤ) ∧
              (x : ℤ) < ((4 : ℤ) - scaled_w 2 2 4 2) / 2 + scaled_w 2 2 4 2 then
            black
          else black)) := by
  have hw : (1 : ℤ) ≤ scaled_w 2 2 4 2 := by
    unfold scaled_w pyInt
    norm_num [min_def]
  have hh : (1 : ℤ) ≤ scaled_h 2 2 4 2 := by
    unfold scaled_h pyInt
    norm_num [min_def]
  have := resize_canvas_spec 2 2 4 2 (fun _ _ => black)
    (by norm_num) (by norm_num) (by norm_num) (by norm_num) hw hh
  obtain ⟨canvas, h1, h2, h3, h4⟩ := this
  refine ⟨canvas, h1, h2, h3, ?_⟩
  intro y x hy hx
  rw [h4 y x hy hx]

theorem extract_loop_files (dir : String) (d e : ℕ → Bool) (k : ℕ)
    (idxs : List ℤ) :
    (extract_loop dir d e k idxs).files =
      (((List.range idxs.length).map (· + k)).filter
          (fun i => d i && e i)).map
        (fun i => joinPath dir (frameFilename i)) := by
  induction idxs generalizing k with
  | nil => rfl
  | cons a rest ih =>
    have hrange : (List.range (rest.length + 1)).map (· + k) =
        k :: (List.range rest.length).map (· + (k + 1)) := by
      rw [List.range_succ_eq_map, List.map_cons, List.map_map]
      refine congrArg₂ _ (by omega) (List.map_congr_left ?_)
      intro i _
      simp only [Function.comp_apply]
      omega
    show (let r := extract_loop dir d e (k + 1) rest
      if d k then
        if e k then
          ⟨joinPath dir (frameFilename k) :: r.files, r.warnings⟩
        else ⟨r.files, r.warnings + 1⟩
      else ⟨r.files, r.warnings + 1⟩ : ExtractOutcome).files = _
    simp only [List.length_cons, hrange, List.filter_cons]
    cases hd : d k <;> cases he : e k <;>
      simp [hd, he, ih (k + 1)]

theorem extract_loop_count (dir : String) (d e : ℕ → Bool) (k : ℕ)
    (idxs : List ℤ) :
    (extract_loop dir d e k idxs).warnings +
      (extract_loop dir d e k idxs).files.length = idxs.length := by
  induction idxs generalizing k with
  | nil => rfl
  | cons a rest ih =>
    have h' := ih (k + 1)
    simp only [extract_loop]
    cases hd : d k <;> cases he : e k <;> simp [hd, he] <;> omega

/-- C7 counterexample: with selected frame indices `[0, 5]`, where the read
at loop position 0 fails and the frame at loop position 1 succeeds, the one
successfully written file is `out/frame000001.jpg` — its name carries
sequence number 1 although it is the 0th file of the output sequence, so
the written names are not consecutively numbered from `frame000000`. -/
theorem extract_written_name_not_sequential :
    (extract_loop "out" (fun i => i == 1) (fun _ => true) 0 [0, 5]).files =
      [joinPath "out" (frameFilename 1)] ∧
    frameFilename 1 ≠ frameFilename 0 := by
  constructor
  · rfl
  · decide

/-- C7 (amended): each successfully written file is named
`frame{idx:06d}.jpg` where `idx` is the zero-based loop position of the
frame in the selected index sequence (`enumerate(frame_indices)`), not the
position in the output sequence: the output is exactly the loop positions
at which both read and write succeed, each mapped to its own loop-position
name, so numbering is consecutive from `frame000000` only when no earlier
position fails. -/
theorem extract_files_named_by_loop_position (dir : String) (d e : ℕ → Bool)
    (idxs : List ℤ) :
    (extract_loop dir d e 0 idxs).files =
      ((List.range idxs.length).filter (fun i => d i && e i)).map
        (fun i => joinPath dir (frameFilename i)) := by
  rw [extract_loop_files dir d e 0 idxs]
  congr 2
  simp

/-- C8: the run returns the list of successfully written file paths and one
warning per failed frame (warnings + successes = attempts); the exit code
taken by `main` is 0 iff at least one loop position both reads and writes
successfully, and the run is reported fatal (exit 1) iff zero frames
succeed. -/
theorem extract_run_exit_code (dir : String) (d e : ℕ → Bool)
    (idxs : List ℤ) :
    (extract_loop dir d e 0 idxs).files =
      ((List.range idxs.length).filter (fun i => d i && e i)).map
        (fun i => joinPath dir (frameFilename i)) ∧
    (extract_loop dir d e 0 idxs).warnings +
        (extract_loop dir d e 0 idxs).files.length = idxs.length ∧
    (main_exit_code (extract_loop dir d e 0 idxs).files = 0 ↔
      ∃ i, i < idxs.length ∧ d i = true ∧ e i = true) ∧
    (main_exit_code (extract_loop dir d e 0 idxs).files = 1 ↔
      ¬∃ i, i < idxs.length ∧ d i = true ∧ e i = true) := by
  have hfiles := extract_loop_files dir d e 0 idxs
  have hmap0 : (List.range idxs.length).map (· + 0) = List.range idxs.length := by
    simp
  rw [hmap0] at hfiles
  have hempty : (extract_loop dir d e 0 idxs).files = [] ↔
      ¬∃ i, i < idxs.length ∧ d i = true ∧ e i = true := by
    rw [hfiles]
    rw [List.map_eq_nil, List.filter_eq_nil]
    constructor
    · intro hall ⟨i, hi, hdi, hei⟩
      exact hall i (List.mem_range.mpr hi) (by rw [hdi, hei]; rfl)
    · intro hnone i hi hp
      refine hnone ⟨i, List.mem_range.mp hi, ?_, ?_⟩ <;>
        revert hp <;> cases d i <;> cases e i <;> simp
  refine ⟨hfiles, ?_⟩
  constructor
  · exact extract_loop_count dir d e 0 idxs
  · unfold main_exit_code
    by_cases hex : ∃ i, i < idxs.length ∧ d i = true ∧ e i = true
    · have : ¬(extract_loop dir d e 0 idxs).files = [] := by
        rw [hempty]; exact fun hc => hc hex
      rw [if_neg (by rw [List.isEmpty_iff]; exact this)]
      constructor
      · simp [hex]
      · simp [hex]
    · have : (extract_loop dir d e 0 idxs).files = [] := hempty.mpr hex
      rw [if_pos (List.isEmpty_iff.mpr this)]
      constructor
      · simp [hex]
      · simp [hex]

/-- C9 counterexample: for a video whose decoder reports 0 total frames
(fps 30), the run does exit non-zero (1) and writes no files, but the fatal
error is the generic no-frames-extracted message
`"No se pudo extraer ningún frame"`, not an "empty video" error; the index
selection is still invoked (on a resolved count of 0) and returns the empty
sequence. -/
theorem zero_frame_video_outcome :
    run_extraction (load_video_info 30 0 640 480) none 20 "out"
        (fun _ => true) (fun _ => true) =
      ⟨1, some noFramesMessage, []⟩ ∧
    noFramesMessage ≠ "empty video" := by
  constructor
  · have hres : resolve_frame_count none (load_video_info 30 0 640 480) 20 = 0 := by
      unfold resolve_frame_count calculate_optimal_frames load_video_info pyInt
      norm_num
    unfold run_extraction
    rw [hres]
    rfl
  · decide

/-- C9 (amended): for every video reporting 0 total frames, with a
requested frame count absent or `≥ 1`, extraction writes no output files
and `main` exits 1 — but via the generic no-frames-extracted error path,
not a dedicated "empty video" check: the resolved count is capped to 0, the
index selection returns the empty sequence, and the loop writes nothing. -/
theorem zero_frame_video_exits_one (info : VideoInfo) (requested : Option ℤ)
    (fps : ℚ) (dir : String) (d e : ℕ → Bool)
    (h0 : info.total_frames = 0) (hreq : ∀ r, requested = some r → 1 ≤ r) :
    run_extraction info requested fps dir d e =
      ⟨1, some noFramesMessage, []⟩ := by
  have hn : resolve_frame_count requested info fps ≤ 0 := by
    unfold resolve_frame_count
    rw [h0]
    exact min_le_right _ _
  have hn1 : resolve_frame_count requested info fps ≠ 1 := by omega
  have hsel : select_indices info.total_frames
      (resolve_frame_count requested info fps) = [] := by
    unfold select_indices
    rw [if_neg hn1]
    have ht : (resolve_frame_count requested info fps).toNat = 0 := by omega
    rw [ht]
    rfl
  unfold run_extraction
  rw [hsel]
  rfl

theorem zero_frame_video_exits_one_witness :
    run_extraction (load_video_info 25 0 320 240) none 20 "frames_output"
        (fun _ => true) (fun _ => true) =
      ⟨1, some noFramesMessage, []⟩ :=
  zero_frame_video_exits_one (load_video_info 25 0 320 240) none 20
    "frames_output" (fun _ => true) (fun _ => true) rfl
    (fun r h => Option.noConfusion h)

/-- C10: `get_video_info` returns a fresh copy of the extractor's metadata
dictionary: the returned dictionary holds the same contents, and mutating
it leaves the extractor's internal `video_info` — and with it the result of
`calculate_optimal_frames` and of the frame-count resolution of
`extract_frames` — unchanged. -/
theorem get_video_info_returns_copy (H : DictHeap) (s : ExtractorState)
    (fresh : ℕ) (v : VideoInfo) (fps : ℚ) (requested : Option ℤ)
    (hfresh : fresh ≠ s.infoRef) :
    (get_video_info H s fresh).1 (get_video_info H s fresh).2 = H s.infoRef ∧
    heapWrite (get_video_info H s fresh).1 (get_video_info H s fresh).2 v
        s.infoRef = H s.infoRef ∧
    calculate_optimal_frames
        (heapWrite (get_video_info H s fresh).1 (get_video_info H s fresh).2 v
          s.infoRef) fps =
      calculate_optimal_frames (H s.infoRef) fps ∧
    resolve_frame_count requested
        (heapWrite (get_video_info H s fresh).1 (get_video_info H s fresh).2 v
          s.infoRef) fps =
      resolve_frame_count requested (H s.infoRef) fps := by
  have hne : s.infoRef ≠ fresh := Ne.symm hfresh
  have hread : heapWrite (get_video_info H s fresh).1
      (get_video_info H s fresh).2 v s.infoRef = H s.infoRef := by
    simp [get_video_info, heapWrite, hne]
  refine ⟨?_, hread, by rw [hread], by rw [hread]⟩
  simp [get_video_info, heapWrite]

theorem get_video_info_returns_copy_witness :
    ((get_video_info (fun _ => load_video_info 1 1 640 480) ⟨0⟩ 1).1
        (get_video_info (fun _ => load_video_info 1 1 640 480) ⟨0⟩ 1).2 =
      (fun _ : ℕ => load_video_info 1 1 640 480) 0) ∧
    (heapWrite (get_video_info (fun _ => load_video_info 1 1 640 480) ⟨0⟩ 1).1
        (get_video_info (fun _ => load_video_info 1 1 640 480) ⟨0⟩ 1).2
        (load_video_info 2 99 111 222) 0 =
      (fun _ : ℕ => load_video_info 1 1 640 480) 0) ∧
    (calculate_optimal_frames
        (heapWrite (get_video_info (fun _ => load_video_info 1 1 640 480) ⟨0⟩ 1).1
          (get_video_info (fun _ => load_video_info 1 1 640 480) ⟨0⟩ 1).2
          (load_video_info 2 99 111 222) 0) 20 =
      calculate_optimal_frames ((fun _ : ℕ => load_video_info 1 1 640 480) 0) 20) ∧
    (resolve_frame_count (some 5)
        (heapWrite (get_video_info (fun _ => load_video_info 1 1 640 480) ⟨0⟩ 1).1
          (get_video_info (fun _ => load_video_info 1 1 640 480) ⟨0⟩ 1).2
          (load_video_info 2 99 111 222) 0) 20 =
      resolve_frame_count (some 5) ((fun _ : ℕ => load_video_info 1 1 640 480) 0) 20) :=
  get_video_info_returns_copy (fun _ => load_video_info 1 1 640 480) ⟨0⟩ 1
    (load_video_info 2 99 111 222) 20 (some 5) (by decide)
